import Mathlib

/-!
Formal model of the DCA1000 host driver in `src/Dev01.py`: the frame and
packet geometry constants, the command-message construction of
`DCA1000.send_command`, the data-packet header decoding of
`DCA1000._read_data_packet`, and the frame-reassembly loop of `DCA1000.read`,
together with proofs about the specified behaviour.

The buffer `ret_frame = np.zeros(UINT16_IN_FRAME, dtype=np.uint16)` is
modelled as a `Frame`: an explicit size together with an index-to-value
function.  The numpy basic slice assignment `buf[a:b] = payload` is modelled
by `sliceAssign`, which clamps the slice bounds to the array size (numpy
never raises on out-of-range slice bounds) and succeeds exactly when the
payload length equals the slice length or is 1 (numpy broadcasting); any
other length raises, which the model reports as `Except.error`.

The packet source `_read_data_packet` either yields a decoded packet or, on
timeout or any decoding exception, yields `None`; a call to `read` is
therefore modelled as a function of the finite trace of
`Option Packet` values the source produces.
-/

set_option maxRecDepth 100000

/-- Fixed transport payload size in bytes (`BYTES_IN_PACKET = 1456`). -/
def BYTES_IN_PACKET : Nat := 1456

/-- Bytes per ADC frame, from `ADC_PARAMS`:
`chirps * rx * tx * IQ * samples * bytes = 128 * 4 * 3 * 2 * 128 * 2`. -/
def BYTES_IN_FRAME : Nat := 128 * 4 * 3 * 2 * 128 * 2

/-- Frame size clipped down to a whole number of packets:
`(BYTES_IN_FRAME // BYTES_IN_PACKET) * BYTES_IN_PACKET`. -/
def BYTES_IN_FRAME_CLIPPED : Nat := (BYTES_IN_FRAME / BYTES_IN_PACKET) * BYTES_IN_PACKET

/-- Whole packets per clipped frame: `BYTES_IN_FRAME // BYTES_IN_PACKET`. -/
def PACKETS_IN_FRAME_CLIPPED : Nat := BYTES_IN_FRAME / BYTES_IN_PACKET

/-- Number of uint16 words in one packet payload: `BYTES_IN_PACKET // 2`. -/
def UINT16_IN_PACKET : Nat := BYTES_IN_PACKET / 2

/-- Number of uint16 words in the frame buffer that `read` allocates:
`BYTES_IN_FRAME // 2` (note: the unclipped frame size). -/
def UINT16_IN_FRAME : Nat := BYTES_IN_FRAME / 2

/-- One decoded data packet, as returned by `_read_data_packet`:
a signed sequence number, the cumulative byte counter, and the payload as a
list of uint16 words. -/
structure Packet where
  seq : Int
  byteCount : Nat
  payload : List Nat

/-- A numpy uint16 buffer: its length and its contents by index. -/
structure Frame where
  size : Nat
  data : Nat → Nat

/-- Model of the numpy basic slice assignment `f[start:stop] = payload` for a
one-dimensional array.  Slice bounds are clamped to the array size; the
assignment succeeds when the payload length equals the slice length, or is 1
(broadcast); any other length raises `ValueError`, reported here as
`Except.error`. -/
def sliceAssign (f : Frame) (start stop : Nat) (payload : List Nat) :
    Except Unit Frame :=
  if payload.length = min stop f.size - min start f.size then
    Except.ok ⟨f.size, fun i =>
      if min start f.size ≤ i ∧ i < min stop f.size
      then payload.getD (i - min start f.size) 0 else f.data i⟩
  else if payload.length = 1 then
    Except.ok ⟨f.size, fun i =>
      if min start f.size ≤ i ∧ i < min stop f.size
      then payload.getD 0 0 else f.data i⟩
  else
    Except.error ()

/-- Buffer slot of a packet: `curr_idx = (packet_num - 1) % PACKETS_IN_FRAME_CLIPPED`.
Python `%` with a positive divisor agrees with `Int.emod`, so the result is
always non-negative. -/
def slotIdx (p : Packet) : Nat :=
  ((p.seq - 1) % (PACKETS_IN_FRAME_CLIPPED : Int)).toNat

/-- First word index written for a packet: `curr_idx * UINT16_IN_PACKET`. -/
def slotStart (p : Packet) : Nat := slotIdx p * UINT16_IN_PACKET

/-- One-past-last word index written for a packet:
`(curr_idx + 1) * UINT16_IN_PACKET`. -/
def slotStop (p : Packet) : Nat := (slotIdx p + 1) * UINT16_IN_PACKET

/-- The guarded buffer write of the accumulating loop:
`try: ret_frame[curr_idx*UINT16_IN_PACKET:(curr_idx+1)*UINT16_IN_PACKET] = packet_data
except: pass`. -/
def tryWrite (buf : Frame) (p : Packet) : Frame :=
  match sliceAssign buf (slotStart p) (slotStop p) p.payload with
  | Except.ok b => b
  | Except.error _ => buf

/-- The zero-initialised frame buffer
`ret_frame = np.zeros(UINT16_IN_FRAME, dtype=np.uint16)`. -/
def frame0 : Frame := ⟨UINT16_IN_FRAME, fun _ => 0⟩

/-- Position of the `read` loop between packets: still waiting for a frame
boundary, or accumulating with the current counter and buffer. -/
inductive LoopState where
  | seeking
  | accumulating (packetsRead : Nat) (buf : Frame)

/-- Outcome of running `read` on a finite packet trace: a completed frame was
returned; `None` was returned because the source yielded no packet
(`IncompleteRead`); an uncaught exception was raised (only possible at the
unguarded frame-start write); or the trace was exhausted while the loop was
still waiting for more packets. -/
inductive RunResult where
  | frame (f : Frame)
  | incomplete
  | error
  | starved (st : LoopState)

/-- True exactly when a completed frame was returned. -/
def RunResult.isFrame : RunResult → Bool
  | RunResult.frame _ => true
  | _ => false

/-- Size of the returned frame, when one was returned. -/
def RunResult.frameSize? : RunResult → Option Nat
  | RunResult.frame f => some f.size
  | _ => none

/-- Contents of the returned frame at an index, when one was returned. -/
def RunResult.frameAt : RunResult → Nat → Option Nat
  | RunResult.frame f, i => some (f.data i)
  | _, _ => none

/-- Packet counter of a run that exhausted its trace while accumulating. -/
def RunResult.starvedPR? : RunResult → Option Nat
  | RunResult.starved (LoopState.accumulating pr _) => some pr
  | _ => none

/-- Buffer contents of a run that exhausted its trace while accumulating. -/
def RunResult.starvedAt : RunResult → Nat → Option Nat
  | RunResult.starved (LoopState.accumulating _ b), i => some (b.data i)
  | _, _ => none

namespace DCA1000

/-- Second loop of `DCA1000.read` (lines 168-185): each packet first
increments `packets_read`; if its `byte_count` is a multiple of
`BYTES_IN_FRAME_CLIPPED` the frame is returned at once with
`self.lost_packets = PACKETS_IN_FRAME_CLIPPED - packets_read` and the packet
payload is not written; otherwise the payload is written into the slot
derived from the sequence number (exceptions swallowed), and `packets_read`
is reset to 0 whenever it exceeds `PACKETS_IN_FRAME_CLIPPED`.  The second
component threads `self.lost_packets`. -/
def accumLoop : List (Option Packet) → Nat → Frame → Option Int →
    RunResult × Option Int
  | [], pr, buf, lost => (RunResult.starved (LoopState.accumulating pr buf), lost)
  | none :: _, _, _, lost => (RunResult.incomplete, lost)
  | some p :: rest, pr, buf, lost =>
    if p.byteCount % BYTES_IN_FRAME_CLIPPED = 0 then
      (RunResult.frame buf,
        some ((PACKETS_IN_FRAME_CLIPPED : Int) - ((pr : Int) + 1)))
    else if PACKETS_IN_FRAME_CLIPPED < pr + 1 then
      accumLoop rest 0 (tryWrite buf p) lost
    else
      accumLoop rest (pr + 1) (tryWrite buf p) lost

/-- First loop of `DCA1000.read` (lines 158-165): packets are discarded until
one has `byte_count % BYTES_IN_FRAME_CLIPPED == 0`; that packet payload is
written at offset 0 (this write is not guarded by try/except, so a length
mismatch raises) and the loop switches to accumulating with
`packets_read = 1`. -/
def seekLoop : List (Option Packet) → Option Int → RunResult × Option Int
  | [], lost => (RunResult.starved LoopState.seeking, lost)
  | none :: _, lost => (RunResult.incomplete, lost)
  | some p :: rest, lost =>
    if p.byteCount % BYTES_IN_FRAME_CLIPPED = 0 then
      match sliceAssign frame0 0 UINT16_IN_PACKET p.payload with
      | Except.ok buf => accumLoop rest 1 buf lost
      | Except.error _ => (RunResult.error, lost)
    else
      seekLoop rest lost

/-- Model of `DCA1000.read` applied to the finite trace of values the packet
source produces, together with the `self.lost_packets` attribute before the
call; returns the outcome and the attribute after the call. -/
def read (trace : List (Option Packet)) (lost : Option Int) :
    RunResult × Option Int :=
  seekLoop trace lost

/-- Resume the read loop from a saved position. -/
def runFrom : LoopState → List (Option Packet) → Option Int →
    RunResult × Option Int
  | LoopState.seeking, t, lost => seekLoop t lost
  | LoopState.accumulating pr buf, t, lost => accumLoop t pr buf lost

end DCA1000

/-- Little-endian unsigned value of a byte list (least significant first). -/
def leRead (bs : List Nat) : Nat := bs.foldr (fun b acc => acc * 256 + b) 0

/-- Big-endian unsigned value of a byte list, as `struct.unpack` with format
`>Q` reads its 8 bytes. -/
def beRead (bs : List Nat) : Nat := bs.foldl (fun acc b => acc * 256 + b) 0

/-- Decoded sequence number: `struct.unpack('<1l', data[:4])`, the signed
little-endian 32-bit value of the first four bytes. -/
def decodeSeq (d : List Nat) : Int :=
  if leRead (d.take 4) < 2 ^ 31 then (leRead (d.take 4) : Int)
  else (leRead (d.take 4) : Int) - 2 ^ 32

/-- Decoded byte counter:
`struct.unpack('>Q', b'\x00\x00' + data[4:10][::-1])`, the 6 bytes
`data[4:10]` reversed, zero-extended to 8 bytes and read big-endian. -/
def decodeByteCount (d : List Nat) : Nat :=
  beRead ([0, 0] ++ ((d.drop 4).take 6).reverse)

/-- Payload words: `np.frombuffer(data[10:], dtype=np.uint16)`, the
little-endian uint16 view of the bytes after the header. -/
def toWords : List Nat → List Nat
  | b0 :: b1 :: rest => (b0 + 256 * b1) :: toWords rest
  | _ => []

/-- Header decode of one datagram as in `DCA1000._read_data_packet`: any
`struct.unpack` or `np.frombuffer` failure (datagram shorter than the 10-byte
header, or an odd number of payload bytes) is caught and yields `None`. -/
def decodePacket (d : List Nat) : Option Packet :=
  if 10 ≤ d.length ∧ (d.length - 10) % 2 = 0 then
    some ⟨decodeSeq d, decodeByteCount d, toWords (d.drop 10)⟩
  else
    none

/-- Command codes of the `CMD` enumeration. -/
inductive CMD where
  | RESET_FPGA_CMD_CODE
  | RESET_AR_DEV_CMD_CODE
  | CONFIG_FPGA_GEN_CMD_CODE
  | CONFIG_EEPROM_CMD_CODE
  | RECORD_START_CMD_CODE
  | RECORD_STOP_CMD_CODE
  | PLAYBACK_START_CMD_CODE
  | PLAYBACK_STOP_CMD_CODE
  | SYSTEM_CONNECT_CMD_CODE
  | SYSTEM_ERROR_CMD_CODE
  | CONFIG_PACKET_DATA_CMD_CODE
  | CONFIG_DATA_MODE_AR_DEV_CMD_CODE
  | INIT_FPGA_PLAYBACK_CMD_CODE
  | READ_FPGA_VERSION_CMD_CODE

/-- Byte value of each command code hex string, e.g. `'0900'` is `[0x09, 0x00]`. -/
def CMD.value : CMD → List Nat
  | CMD.RESET_FPGA_CMD_CODE => [0x01, 0x00]
  | CMD.RESET_AR_DEV_CMD_CODE => [0x02, 0x00]
  | CMD.CONFIG_FPGA_GEN_CMD_CODE => [0x03, 0x00]
  | CMD.CONFIG_EEPROM_CMD_CODE => [0x04, 0x00]
  | CMD.RECORD_START_CMD_CODE => [0x05, 0x00]
  | CMD.RECORD_STOP_CMD_CODE => [0x06, 0x00]
  | CMD.PLAYBACK_START_CMD_CODE => [0x07, 0x00]
  | CMD.PLAYBACK_STOP_CMD_CODE => [0x08, 0x00]
  | CMD.SYSTEM_CONNECT_CMD_CODE => [0x09, 0x00]
  | CMD.SYSTEM_ERROR_CMD_CODE => [0x0a, 0x00]
  | CMD.CONFIG_PACKET_DATA_CMD_CODE => [0x0b, 0x00]
  | CMD.CONFIG_DATA_MODE_AR_DEV_CMD_CODE => [0x0c, 0x00]
  | CMD.INIT_FPGA_PLAYBACK_CMD_CODE => [0x0d, 0x00]
  | CMD.READ_FPGA_VERSION_CMD_CODE => [0x0e, 0x00]

/-- Bytes of the constant hex string `CONFIG_HEADER = '5AA5'`. -/
def CONFIG_HEADER : List Nat := [0x5A, 0xA5]

/-- Bytes of the constant hex string `CONFIG_FOOTER = 'AAEE'`. -/
def CONFIG_FOOTER : List Nat := [0xAA, 0xEE]

namespace DCA1000

/-- Message built by the typed-command branch of `DCA1000.send_command`:
`bytes.fromhex(header + command_code + length + params + footer)`, where
`length` and `params` are caller-supplied hex strings (defaults `'0000'` and
`''`), modelled as the byte lists they denote.  No relation between `length`
and `params` is checked and no length limit is enforced. -/
def send_command_message (cmd : CMD) (len params : List Nat) : List Nat :=
  CONFIG_HEADER ++ cmd.value ++ len ++ params ++ CONFIG_FOOTER

end DCA1000

/-- Spec-side encoder, following the words of spec sections 3 and 4.1: the
paramLength field is the two-byte little-endian byte count of `params`, and
encoding fails with `ParamsTooLarge` (here `Except.error`) when
`len(params) > 0xFFFF`.  This definition follows the specification, not the
source, and exists to be compared with `DCA1000.send_command_message`. -/
def specEncode (code params : List Nat) : Except Unit (List Nat) :=
  if 0xFFFF < params.length then Except.error ()
  else Except.ok (CONFIG_HEADER ++ code ++
    [params.length % 256, params.length / 256 % 256] ++ params ++ CONFIG_FOOTER)

/-! Concrete packet traces used below to exercise the model. -/

/-- Two-packet run: a boundary packet starting a frame, then a second
boundary packet (sequence number 2, payload all 7) that completes it. -/
def c1trace : List (Option Packet) :=
  [some ⟨1, 786240, List.replicate 728 5⟩,
   some ⟨2, 2 * 786240, List.replicate 728 7⟩]

/-- The synthetic sequence of the claim: sequence numbers 1..540, packet i
carrying `byteCount = i * BYTES_IN_PACKET`; the last byte count,
`540 * 1456 = 786240`, is the exact multiple of `BYTES_IN_FRAME_CLIPPED`.
Packet i carries the payload word i in every position. -/
def c2trace : List (Option Packet) :=
  (List.range 540).map
    (fun i => some ⟨Int.ofNat i + 1, (i + 1) * 1456, List.replicate 728 (i + 1)⟩)

/-- Two-packet run completing one frame, used to inspect the emitted size. -/
def c3trace : List (Option Packet) :=
  [some ⟨1, 786240, List.replicate 728 9⟩, some ⟨2, 2 * 786240, [4]⟩]

/-- A frame-start packet, then 540 non-boundary packets (enough to trip the
counter reset), then a boundary packet completing the frame: 542 packets
ingested since and including the frame start. -/
def c5trace : List (Option Packet) :=
  some ⟨1, 786240, [0]⟩ ::
    ((List.range 540).map fun i => some ⟨Int.ofNat i + 2, 1, [0]⟩)
    ++ [some ⟨542, 2 * 786240, [0]⟩]

/-- A boundary packet used to instantiate the accumulating-state theorems. -/
def pB1 : Packet := ⟨2, 2 * 786240, List.replicate 728 7⟩

/-- A boundary packet with an arbitrary payload. -/
def pB5 : Packet := ⟨3, 3 * 786240, [1]⟩

/-- A non-boundary packet with a negative sequence number and a payload whose
length (3) can be placed nowhere. -/
def pX7 : Packet := ⟨-5, 3, [1, 2, 3]⟩

/-- A non-boundary packet with an ordinary sequence number. -/
def p8v : Packet := ⟨7, 123, [9]⟩

/-- A 12-byte datagram used to instantiate the header-decode theorem. -/
def dW9 : List Nat := [1, 0, 0, 0, 2, 3, 0, 0, 0, 0, 5, 0]

/-! Helper lemmas about the buffer write. -/

/-- Slice assignment never changes the array size. -/
theorem sliceAssign_size {f g : Frame} {a b : Nat} {pl : List Nat}
    (h : sliceAssign f a b pl = Except.ok g) : g.size = f.size := by
  unfold sliceAssign at h
  split_ifs at h with h1 h2
  · injection h with h
    subst h
    rfl
  · injection h with h
    subst h
    rfl

/-- The guarded write never changes the array size. -/
theorem tryWrite_size (buf : Frame) (p : Packet) : (tryWrite buf p).size = buf.size := by
  unfold tryWrite
  split
  · rename_i b hb
    exact sliceAssign_size hb
  · rfl

/-- Slice assignment touches nothing outside the requested range. -/
theorem sliceAssign_outside {f g : Frame} {a b : Nat} {pl : List Nat}
    (h : sliceAssign f a b pl = Except.ok g) (i : Nat) (hi : i < a ∨ b ≤ i) :
    g.data i = f.data i := by
  unfold sliceAssign at h
  split_ifs at h with h1 h2
  · injection h with h
    subst h
    dsimp only
    split
    · rename_i hcond
      exfalso
      omega
    · rfl
  · injection h with h
    subst h
    dsimp only
    split
    · rename_i hcond
      exfalso
      omega
    · rfl

/-- The guarded write touches nothing outside the packet slot. -/
theorem tryWrite_outside (buf : Frame) (p : Packet) (i : Nat)
    (hi : i < slotStart p ∨ slotStop p ≤ i) :
    (tryWrite buf p).data i = buf.data i := by
  unfold tryWrite
  split
  · rename_i b hb
    exact sliceAssign_outside hb i hi
  · rfl

/-- The accumulating loop never raises: every buffer write in it is wrapped
in try/except, and no other statement of the loop can raise. -/
theorem accumLoop_ne_error (t : List (Option Packet)) :
    ∀ (pr : Nat) (buf : Frame) (lost : Option Int),
      (DCA1000.accumLoop t pr buf lost).1 ≠ RunResult.error := by
  induction t with
  | nil =>
    intro pr buf lost h
    simp [DCA1000.accumLoop] at h
  | cons hd tl ih =>
    intro pr buf lost
    cases hd with
    | none =>
      intro h
      simp [DCA1000.accumLoop] at h
    | some p =>
      by_cases hb : p.byteCount % BYTES_IN_FRAME_CLIPPED = 0
      · simp [DCA1000.accumLoop, hb]
      · by_cases hv : PACKETS_IN_FRAME_CLIPPED < pr + 1
        · simpa [DCA1000.accumLoop, hb, hv] using ih 0 (tryWrite buf p) lost
        · simpa [DCA1000.accumLoop, hb, hv] using ih (pr + 1) (tryWrite buf p) lost

/-- A payload that fits no slot (its length is neither the slot width nor 1)
is silently dropped by the guarded write, provided the buffer has the size
`read` allocates. -/
theorem tryWrite_drop (buf : Frame) (p : Packet) (hsize : buf.size = UINT16_IN_FRAME)
    (hl : p.payload.length ≠ UINT16_IN_PACKET) (hl1 : p.payload.length ≠ 1) :
    tryWrite buf p = buf := by
  have h540 : (PACKETS_IN_FRAME_CLIPPED : Int) = 540 := by decide
  have hidx : slotIdx p < 540 := by
    unfold slotIdx
    rw [h540]
    omega
  have h728 : UINT16_IN_PACKET = 728 := by decide
  have hfr : UINT16_IN_FRAME = 393216 := by decide
  have hlen : min (slotStop p) buf.size - min (slotStart p) buf.size
      = UINT16_IN_PACKET := by
    unfold slotStart slotStop
    rw [hsize, hfr, h728]
    omega
  have herr : sliceAssign buf (slotStart p) (slotStop p) p.payload
      = Except.error () := by
    unfold sliceAssign
    rw [hlen, if_neg hl, if_neg hl1]
  unfold tryWrite
  rw [herr]

/-! Claim C1. -/

/-- Claim C1, amended: for a packet ingested in the accumulating state whose
byte count is a multiple of `BYTES_IN_FRAME_CLIPPED`, the boundary test runs
first and returns at once: the frame is emitted exactly as accumulated so
far (the boundary packet payload is never written into any slot), the
reported loss is `PACKETS_IN_FRAME_CLIPPED - packetsRead` for the
incremented counter, and the loop resets for the next frame. -/
theorem c1_boundary_emits_without_write (p : Packet) (rest : List (Option Packet))
    (pr : Nat) (buf : Frame) (lost : Option Int)
    (h : p.byteCount % BYTES_IN_FRAME_CLIPPED = 0) :
    DCA1000.accumLoop (some p :: rest) pr buf lost
      = (RunResult.frame buf,
          some ((PACKETS_IN_FRAME_CLIPPED : Int) - ((pr : Int) + 1))) := by
  simp [DCA1000.accumLoop, h]

/-- Witness for `c1_boundary_emits_without_write` at a concrete boundary
packet: the emitted frame is the untouched entry buffer. -/
theorem c1_boundary_emits_without_write_w :
    DCA1000.accumLoop [some pB1] 1 frame0 none
      = (RunResult.frame frame0,
          some ((PACKETS_IN_FRAME_CLIPPED : Int) - (((1 : Nat) : Int) + 1))) :=
  c1_boundary_emits_without_write pB1 [] 1 frame0 none (by decide)

/-- Counterexample to claim C1 as stated: in the run `c1trace`, the second
packet (sequence number 2, payload all 7) is a boundary packet ingested
while accumulating; the claim says its payload is written at slot
`(2 - 1) % 540 = 1`, i.e. word 728 of the emitted frame would be 7, but the
emitted frame still holds 0 there: the write did not happen. -/
theorem c1_counterexample :
    (DCA1000.read c1trace none).1.isFrame = true
    ∧ (DCA1000.read c1trace none).1.frameAt 728 = some 0
    ∧ (DCA1000.read c1trace none).1.frameAt 728 ≠ some 7 :=
  ⟨by decide, by decide, by decide⟩

/-! Claim C2. -/

/-- Counterexample to claim C2 as stated: feeding the synthetic sequence
`c2trace` (sequence numbers 1..540, `byteCount = i * BYTES_IN_PACKET`) emits
no `FrameReady` at all, and the stored loss count is never set. -/
theorem c2_counterexample :
    (DCA1000.read c2trace none).1.isFrame = false
    ∧ (DCA1000.read c2trace none).2 = none :=
  ⟨by decide, by decide⟩

/-- Claim C2, amended: on the synthetic sequence `c2trace`, packets 1..539
are discarded while seeking (their byte counts are not multiples of
`BYTES_IN_FRAME_CLIPPED`); only packet 540 (`byteCount = 786240`) passes the
boundary test, transitioning to accumulating with `packetsRead = 1` and its
payload (the word 540) written at buffer offset 0; no frame is emitted and
the run ends still accumulating, with the loss count untouched. -/
theorem c2_literal_sequence_no_frame :
    (DCA1000.read c2trace none).1.starvedPR? = some 1
    ∧ (DCA1000.read c2trace none).1.starvedAt 0 = some 540
    ∧ (DCA1000.read c2trace none).1.starvedAt 727 = some 540
    ∧ (DCA1000.read c2trace none).1.starvedAt 728 = some 0
    ∧ (DCA1000.read c2trace none).2 = none :=
  ⟨by decide, by decide, by decide, by decide, by decide⟩

/-! Claim C3. -/

/-- Any frame emitted by the accumulating loop is the threaded buffer, whose
size never changes. -/
theorem accumLoop_frame_size (t : List (Option Packet)) :
    ∀ (pr : Nat) (buf : Frame) (lost : Option Int),
      (DCA1000.accumLoop t pr buf lost).1.isFrame = true →
      (DCA1000.accumLoop t pr buf lost).1.frameSize? = some buf.size := by
  induction t with
  | nil =>
    intro pr buf lost h
    simp [DCA1000.accumLoop, RunResult.isFrame] at h
  | cons hd tl ih =>
    intro pr buf lost
    cases hd with
    | none =>
      intro h
      simp [DCA1000.accumLoop, RunResult.isFrame] at h
    | some p =>
      by_cases hb : p.byteCount % BYTES_IN_FRAME_CLIPPED = 0
      · intro _
        simp [DCA1000.accumLoop, hb, RunResult.frameSize?]
      · by_cases hv : PACKETS_IN_FRAME_CLIPPED < pr + 1
        · have heq : DCA1000.accumLoop (some p :: tl) pr buf lost
              = DCA1000.accumLoop tl 0 (tryWrite buf p) lost := by
            simp [DCA1000.accumLoop, hb, hv]
          rw [heq]
          intro h
          rw [ih 0 (tryWrite buf p) lost h, tryWrite_size]
        · have heq : DCA1000.accumLoop (some p :: tl) pr buf lost
              = DCA1000.accumLoop tl (pr + 1) (tryWrite buf p) lost := by
            simp [DCA1000.accumLoop, hb, hv]
          rw [heq]
          intro h
          rw [ih (pr + 1) (tryWrite buf p) lost h, tryWrite_size]

/-- Any frame emitted by `read` has the size of the buffer allocated at the
start of the call. -/
theorem seekLoop_frame_size (t : List (Option Packet)) :
    ∀ (lost : Option Int),
      (DCA1000.seekLoop t lost).1.isFrame = true →
      (DCA1000.seekLoop t lost).1.frameSize? = some UINT16_IN_FRAME := by
  induction t with
  | nil =>
    intro lost h
    simp [DCA1000.seekLoop, RunResult.isFrame] at h
  | cons hd tl ih =>
    intro lost
    cases hd with
    | none =>
      intro h
      simp [DCA1000.seekLoop, RunResult.isFrame] at h
    | some p =>
      by_cases hb : p.byteCount % BYTES_IN_FRAME_CLIPPED = 0
      · cases hs : sliceAssign frame0 0 UINT16_IN_PACKET p.payload with
        | ok buf =>
          have heq : DCA1000.seekLoop (some p :: tl) lost
              = DCA1000.accumLoop tl 1 buf lost := by
            simp [DCA1000.seekLoop, hb, hs]
          rw [heq]
          intro h
          rw [accumLoop_frame_size tl 1 buf lost h, sliceAssign_size hs]
          rfl
        | error e =>
          have heq : DCA1000.seekLoop (some p :: tl) lost
              = (RunResult.error, lost) := by
            simp [DCA1000.seekLoop, hb, hs]
          rw [heq]
          intro h
          simp [RunResult.isFrame] at h
      · have heq : DCA1000.seekLoop (some p :: tl) lost
            = DCA1000.seekLoop tl lost := by
          simp [DCA1000.seekLoop, hb]
        rw [heq]
        exact ih lost

/-- Claim C3, amended: every frame emitted by `read` is a buffer of exactly
`UINT16_IN_FRAME = BYTES_IN_FRAME / 2 = 393216` uint16 samples — the
unclipped word count, not `BYTES_IN_FRAME_CLIPPED / 2 = 393120`. -/
theorem c3_emitted_frame_size (trace : List (Option Packet)) (lost : Option Int)
    (h : (DCA1000.read trace lost).1.isFrame = true) :
    (DCA1000.read trace lost).1.frameSize? = some UINT16_IN_FRAME
    ∧ UINT16_IN_FRAME = 393216 :=
  ⟨seekLoop_frame_size trace lost h, by decide⟩

/-- Witness for `c3_emitted_frame_size` on a concrete successful run. -/
theorem c3_emitted_frame_size_w :
    (DCA1000.read c3trace none).1.frameSize? = some UINT16_IN_FRAME
    ∧ UINT16_IN_FRAME = 393216 :=
  c3_emitted_frame_size c3trace none (by decide)

/-- Counterexample to claim C3 as stated: a frame emitted by a successful
`read` holds 393216 uint16 samples, which is not
`wordsPerClippedFrame = BYTES_IN_FRAME_CLIPPED / 2 = 393120`. -/
theorem c3_counterexample :
    (DCA1000.read c3trace none).1.frameSize? = some 393216
    ∧ (393216 : Nat) ≠ BYTES_IN_FRAME_CLIPPED / 2
    ∧ BYTES_IN_FRAME_CLIPPED / 2 = 393120 :=
  ⟨by decide, by decide, by decide⟩

/-! Claim C4. -/

/-- Claim C4, amended: the typed-command branch of `send_command` builds
`header ++ code ++ length ++ params ++ footer` where the length field is the
caller-supplied two-byte value (defaulting to `'0000'`), not derived from
`params`, and no length check is performed; it coincides with the spec-side
encoder exactly when the caller passes the little-endian byte count of
`params` and that count fits in two bytes. -/
theorem c4_message_layout (cmd : CMD) (len params : List Nat) :
    DCA1000.send_command_message cmd len params
        = CONFIG_HEADER ++ cmd.value ++ len ++ params ++ CONFIG_FOOTER
    ∧ ((specEncode cmd.value params).toOption
          = some (DCA1000.send_command_message cmd
              [params.length % 256, params.length / 256 % 256] params)
        ↔ params.length ≤ 0xFFFF) := by
  constructor
  · rfl
  · constructor
    · intro h
      by_contra hlen
      unfold specEncode at h
      rw [if_pos (by omega)] at h
      simp [Except.toOption] at h
    · intro h
      unfold specEncode
      rw [if_neg (by omega)]
      rfl

/-- Params of 70000 bytes, exceeding the two-byte length field. -/
def bigParams : List Nat := List.replicate 70000 0

/-- Counterexample to claim C4 as stated: with the default length field
`'0000'` and a two-byte `params`, the encoded paramLength field is 0, not
`len(params) = 2`; and params of 70000 bytes, although longer than 0xFFFF,
are encoded without any failure into the usual message layout, whereas the
spec-side encoder rejects them. -/
theorem c4_counterexample :
    DCA1000.send_command_message CMD.SYSTEM_CONNECT_CMD_CODE [0, 0] [0xAB, 0xCD]
        = [0x5A, 0xA5, 0x09, 0x00, 0x00, 0x00, 0xAB, 0xCD, 0xAA, 0xEE]
    ∧ ([0xAB, 0xCD] : List Nat).length = 2
    ∧ (0 : Nat) ≠ 2
    ∧ bigParams.length = 70000
    ∧ 0xFFFF < 70000
    ∧ DCA1000.send_command_message CMD.SYSTEM_CONNECT_CMD_CODE [0, 0] bigParams
        = CONFIG_HEADER ++ CMD.SYSTEM_CONNECT_CMD_CODE.value ++ [0, 0]
            ++ bigParams ++ CONFIG_FOOTER
    ∧ (specEncode CMD.SYSTEM_CONNECT_CMD_CODE.value bigParams).toOption = none := by
  refine ⟨by decide, by decide, by decide, ?_, by decide, rfl, ?_⟩
  · unfold bigParams
    rw [List.length_replicate]
  · unfold specEncode
    rw [if_pos (by unfold bigParams; rw [List.length_replicate]; decide)]
    rfl

/-! Claim C5. -/

/-- Claim C5, amended: when a boundary packet completes a frame, the
reported loss is `PACKETS_IN_FRAME_CLIPPED` minus the incremented value of
the loop counter `packets_read` — the counter that counts packets since the
frame start except that it is reset to 0 whenever it exceeds
`PACKETS_IN_FRAME_CLIPPED` without a boundary (the safety valve of C8).  The
value is negative exactly when the incremented counter exceeds
`PACKETS_IN_FRAME_CLIPPED`, and it is stored as-is, never clamped. -/
theorem c5_lost_packets_value (p : Packet) (rest : List (Option Packet))
    (pr : Nat) (buf : Frame) (lost : Option Int)
    (h : p.byteCount % BYTES_IN_FRAME_CLIPPED = 0) :
    (DCA1000.accumLoop (some p :: rest) pr buf lost).2
        = some ((PACKETS_IN_FRAME_CLIPPED : Int) - ((pr : Int) + 1))
    ∧ ((PACKETS_IN_FRAME_CLIPPED : Int) - ((pr : Int) + 1) < 0
        ↔ PACKETS_IN_FRAME_CLIPPED < pr + 1) := by
  have hv : PACKETS_IN_FRAME_CLIPPED = 540 := by decide
  constructor
  · simp [DCA1000.accumLoop, h]
  · rw [hv]
    omega

/-- Witness for `c5_lost_packets_value` at a concrete boundary packet with
the counter at 540: the stored loss is `540 - 541 = -1`, negative and not
clamped. -/
theorem c5_lost_packets_value_w :
    (DCA1000.accumLoop [some pB5] 540 frame0 none).2
        = some ((PACKETS_IN_FRAME_CLIPPED : Int) - (((540 : Nat) : Int) + 1))
    ∧ ((PACKETS_IN_FRAME_CLIPPED : Int) - (((540 : Nat) : Int) + 1) < 0
        ↔ PACKETS_IN_FRAME_CLIPPED < 540 + 1) :=
  c5_lost_packets_value pB5 [] 540 frame0 none (by decide)

/-- Counterexample to claim C5 as stated: in the run `c5trace`, 542 packets
are ingested since and including the frame-start packet, so the claim
predicts `lostPackets = 540 - 542 = -2`; but the counter was reset by the
safety valve along the way, and the emitted frame stores `539` instead. -/
theorem c5_counterexample :
    (DCA1000.read c5trace none).1.isFrame = true
    ∧ (DCA1000.read c5trace none).2 = some 539
    ∧ (539 : Int) ≠ (PACKETS_IN_FRAME_CLIPPED : Int) - 542 :=
  ⟨by decide, by decide, by decide⟩

/-! Claim C6. -/

/-- Splitting a trace of the accumulating loop: processing `a ++ b` either
finishes inside `a`, or exhausts `a` and resumes on `b` from the reached
position. -/
theorem accumLoop_append (a : List (Option Packet)) :
    ∀ (b : List (Option Packet)) (pr : Nat) (buf : Frame) (lost : Option Int),
      DCA1000.accumLoop (a ++ b) pr buf lost
        = match DCA1000.accumLoop a pr buf lost with
          | (RunResult.starved st, l) => DCA1000.runFrom st b l
          | r => r := by
  induction a with
  | nil =>
    intro b pr buf lost
    simp [DCA1000.accumLoop, DCA1000.runFrom]
  | cons hd tl ih =>
    intro b pr buf lost
    cases hd with
    | none => simp [DCA1000.accumLoop]
    | some p =>
      by_cases hb : p.byteCount % BYTES_IN_FRAME_CLIPPED = 0
      · simp [DCA1000.accumLoop, hb]
      · by_cases hv : PACKETS_IN_FRAME_CLIPPED < pr + 1
        · simpa [DCA1000.accumLoop, hb, hv] using ih b 0 (tryWrite buf p) lost
        · simpa [DCA1000.accumLoop, hb, hv] using ih b (pr + 1) (tryWrite buf p) lost

/-- Splitting a trace of `read`: processing `a ++ b` either finishes inside
`a`, or exhausts `a` and resumes on `b` from the reached position. -/
theorem seekLoop_append (a : List (Option Packet)) :
    ∀ (b : List (Option Packet)) (lost : Option Int),
      DCA1000.seekLoop (a ++ b) lost
        = match DCA1000.seekLoop a lost with
          | (RunResult.starved st, l) => DCA1000.runFrom st b l
          | r => r := by
  induction a with
  | nil =>
    intro b lost
    simp [DCA1000.seekLoop, DCA1000.runFrom]
  | cons hd tl ih =>
    intro b lost
    cases hd with
    | none => simp [DCA1000.seekLoop]
    | some p =>
      by_cases hb : p.byteCount % BYTES_IN_FRAME_CLIPPED = 0
      · cases hs : sliceAssign frame0 0 UINT16_IN_PACKET p.payload with
        | ok buf => simpa [DCA1000.seekLoop, hb, hs] using accumLoop_append tl b 1 buf lost
        | error e => simp [DCA1000.seekLoop, hb, hs]
      · simpa [DCA1000.seekLoop, hb] using ih b lost

/-- Claim C6: if the source yields packets that do not complete a frame (the
run is still seeking or accumulating when they end) and then yields no
packet — a timeout or receive failure — `read` returns the `IncompleteRead`
outcome, never a partially filled frame, whatever else the source would have
produced afterwards. -/
theorem c6_timeout_incomplete (pre : List Packet) (suf : List (Option Packet))
    (lost l0 : Option Int) (st : LoopState)
    (h : DCA1000.read (pre.map some) lost = (RunResult.starved st, l0)) :
    DCA1000.read (pre.map some ++ none :: suf) lost
      = (RunResult.incomplete, l0) := by
  unfold DCA1000.read at h ⊢
  rw [seekLoop_append (pre.map some) (none :: suf) lost, h]
  cases st with
  | seeking => rfl
  | accumulating pr buf => rfl

/-- Witness for `c6_timeout_incomplete`: an immediate timeout yields the
`IncompleteRead` outcome. -/
theorem c6_timeout_incomplete_w :
    DCA1000.read (List.map some ([] : List Packet) ++ none :: []) none
      = (RunResult.incomplete, none) :=
  c6_timeout_incomplete [] [] none none LoopState.seeking rfl

/-! Claim C7. -/

/-- Claim C7: ingesting any packet in the accumulating state — any integer
sequence number, any payload — never raises: the one step is the
unconditional counter increment (followed by the documented safety-valve
reset when the incremented counter exceeds `PACKETS_IN_FRAME_CLIPPED`) and
the guarded slot write; the slot is always in range because the Python
modulo is non-negative, a payload that fits no slot is silently dropped, and
neither the sequence number nor the payload influences anything but the
written words. -/
theorem c7_accumulating_ingest_safe (p : Packet) (rest : List (Option Packet))
    (pr : Nat) (buf : Frame) (lost : Option Int)
    (hb : p.byteCount % BYTES_IN_FRAME_CLIPPED ≠ 0)
    (hsize : buf.size = UINT16_IN_FRAME) :
    DCA1000.accumLoop (some p :: rest) pr buf lost
        = DCA1000.accumLoop rest
            (if PACKETS_IN_FRAME_CLIPPED < pr + 1 then 0 else pr + 1)
            (tryWrite buf p) lost
    ∧ (DCA1000.accumLoop (some p :: rest) pr buf lost).1 ≠ RunResult.error
    ∧ slotIdx p < PACKETS_IN_FRAME_CLIPPED
    ∧ (p.payload.length ≠ UINT16_IN_PACKET → p.payload.length ≠ 1 →
        tryWrite buf p = buf) := by
  refine ⟨?_, accumLoop_ne_error (some p :: rest) pr buf lost, ?_,
    fun hl hl1 => tryWrite_drop buf p hsize hl hl1⟩
  · by_cases hv : PACKETS_IN_FRAME_CLIPPED < pr + 1 <;>
      simp [DCA1000.accumLoop, hb, hv]
  · have h540 : (PACKETS_IN_FRAME_CLIPPED : Int) = 540 := by decide
    have hP : PACKETS_IN_FRAME_CLIPPED = 540 := by decide
    unfold slotIdx
    rw [h540, hP]
    omega

/-- Witness for `c7_accumulating_ingest_safe` at a concrete packet with a
negative sequence number and a three-word payload: the step runs without
error and the unplaceable write is dropped. -/
theorem c7_accumulating_ingest_safe_w :
    DCA1000.accumLoop [some pX7] 2 frame0 none
        = DCA1000.accumLoop []
            (if PACKETS_IN_FRAME_CLIPPED < 2 + 1 then 0 else 2 + 1)
            (tryWrite frame0 pX7) none
    ∧ (DCA1000.accumLoop [some pX7] 2 frame0 none).1 ≠ RunResult.error
    ∧ slotIdx pX7 < PACKETS_IN_FRAME_CLIPPED
    ∧ tryWrite frame0 pX7 = frame0 := by
  have h := c7_accumulating_ingest_safe pX7 [] 2 frame0 none (by decide) rfl
  exact ⟨h.1, h.2.1, h.2.2.1, h.2.2.2 (by decide) (by decide)⟩

/-! Claim C8. -/

/-- Claim C8: when a non-boundary packet arrives with the counter already at
`PACKETS_IN_FRAME_CLIPPED` (so the incremented counter exceeds it), the
counter is reset to 0 and nothing else changes: the loop stays accumulating
on the same buffer — with only this packet's ordinary slot write applied,
everything outside that slot preserved and the size unchanged — no frame is
emitted or discarded, and the stored loss count is untouched. -/
theorem c8_safety_valve (p : Packet) (rest : List (Option Packet))
    (pr : Nat) (buf : Frame) (lost : Option Int)
    (hb : p.byteCount % BYTES_IN_FRAME_CLIPPED ≠ 0)
    (hover : PACKETS_IN_FRAME_CLIPPED < pr + 1) :
    DCA1000.accumLoop (some p :: rest) pr buf lost
        = DCA1000.accumLoop rest 0 (tryWrite buf p) lost
    ∧ (tryWrite buf p).size = buf.size
    ∧ (∀ i, i < slotStart p ∨ slotStop p ≤ i →
        (tryWrite buf p).data i = buf.data i) := by
  refine ⟨?_, tryWrite_size buf p, fun i hi => tryWrite_outside buf p i hi⟩
  simp [DCA1000.accumLoop, hb, hover]

/-- Witness for `c8_safety_valve` at a concrete non-boundary packet with the
counter at `PACKETS_IN_FRAME_CLIPPED`. -/
theorem c8_safety_valve_w :
    DCA1000.accumLoop [some p8v] PACKETS_IN_FRAME_CLIPPED frame0 none
        = DCA1000.accumLoop [] 0 (tryWrite frame0 p8v) none
    ∧ (tryWrite frame0 p8v).size = frame0.size
    ∧ (tryWrite frame0 p8v).data 0 = frame0.data 0 := by
  have h := c8_safety_valve p8v [] PACKETS_IN_FRAME_CLIPPED frame0 none
    (by decide) (by decide)
  exact ⟨h.1, h.2.1, h.2.2 0 (by decide)⟩

/-! Claim C9. -/

/-- Claim C9: for a datagram of at least 10 bytes (with an even payload, as
`np.frombuffer` requires for a successful decode), the decoded packet
carries the signed little-endian 32-bit sequence number of bytes 0..3, and a
byte counter that — although assembled by reversing bytes 4..9,
zero-extending to 8 bytes and reading big-endian — equals the plain
little-endian value `sum of d[4+k] * 256^k for k in 0..5`, hence lies below
`2^48`. -/
theorem c9_header_decode (d : List Nat) (h10 : 10 ≤ d.length)
    (heven : (d.length - 10) % 2 = 0) (hbytes : ∀ b ∈ d, b < 256) :
    decodePacket d = some ⟨decodeSeq d, decodeByteCount d, toWords (d.drop 10)⟩
    ∧ decodeByteCount d
        = d.getD 4 0 + d.getD 5 0 * 256 + d.getD 6 0 * 256 ^ 2
          + d.getD 7 0 * 256 ^ 3 + d.getD 8 0 * 256 ^ 4 + d.getD 9 0 * 256 ^ 5
    ∧ decodeByteCount d < 2 ^ 48
    ∧ decodeSeq d = (if leRead (d.take 4) < 2 ^ 31 then (leRead (d.take 4) : Int)
          else (leRead (d.take 4) : Int) - 2 ^ 32) := by
  obtain ⟨a0, a1, a2, a3, a4, a5, a6, a7, a8, a9, rest, rfl⟩ :
      ∃ a0 a1 a2 a3 a4 a5 a6 a7 a8 a9 rest,
        d = a0 :: a1 :: a2 :: a3 :: a4 :: a5 :: a6 :: a7 :: a8 :: a9 :: rest := by
    rcases d with _ | ⟨a0, d⟩
    · simp at h10
    rcases d with _ | ⟨a1, d⟩
    · simp at h10
    rcases d with _ | ⟨a2, d⟩
    · simp at h10
    rcases d with _ | ⟨a3, d⟩
    · simp at h10
    rcases d with _ | ⟨a4, d⟩
    · simp at h10
    rcases d with _ | ⟨a5, d⟩
    · simp at h10
    rcases d with _ | ⟨a6, d⟩
    · simp at h10
    rcases d with _ | ⟨a7, d⟩
    · simp at h10
    rcases d with _ | ⟨a8, d⟩
    · simp at h10
    rcases d with _ | ⟨a9, d⟩
    · simp at h10
    exact ⟨a0, a1, a2, a3, a4, a5, a6, a7, a8, a9, d, rfl⟩
  have e1 : decodeByteCount (a0 :: a1 :: a2 :: a3 :: a4 :: a5 :: a6 :: a7 :: a8 :: a9 :: rest)
      = (((((((0 * 256 + 0) * 256 + 0) * 256 + a9) * 256 + a8) * 256 + a7) * 256 + a6)
          * 256 + a5) * 256 + a4 := rfl
  refine ⟨?_, ?_, ?_, rfl⟩
  · unfold decodePacket
    rw [if_pos ⟨h10, heven⟩]
  · rw [e1]
    show _ = a4 + a5 * 256 + a6 * 256 ^ 2 + a7 * 256 ^ 3 + a8 * 256 ^ 4 + a9 * 256 ^ 5
    ring
  · rw [e1]
    have ha4 : a4 < 256 := hbytes a4 (by simp)
    have ha5 : a5 < 256 := hbytes a5 (by simp)
    have ha6 : a6 < 256 := hbytes a6 (by simp)
    have ha7 : a7 < 256 := hbytes a7 (by simp)
    have ha8 : a8 < 256 := hbytes a8 (by simp)
    have ha9 : a9 < 256 := hbytes a9 (by simp)
    show _ < 281474976710656
    omega

/-- Witness for `c9_header_decode` on the concrete datagram `dW9`: sequence
number 1, byte counter `2 + 3 * 256 = 770`, payload `[5]`. -/
theorem c9_header_decode_w :
    decodePacket dW9 = some ⟨decodeSeq dW9, decodeByteCount dW9, toWords (dW9.drop 10)⟩
    ∧ decodeByteCount dW9
        = dW9.getD 4 0 + dW9.getD 5 0 * 256 + dW9.getD 6 0 * 256 ^ 2
          + dW9.getD 7 0 * 256 ^ 3 + dW9.getD 8 0 * 256 ^ 4 + dW9.getD 9 0 * 256 ^ 5
    ∧ decodeByteCount dW9 < 2 ^ 48
    ∧ decodeSeq dW9 = (if leRead (dW9.take 4) < 2 ^ 31 then (leRead (dW9.take 4) : Int)
          else (leRead (dW9.take 4) : Int) - 2 ^ 32) :=
  c9_header_decode dW9 (by decide) (by decide) (by decide)

/-! Claim C10. -/

/-- The accumulating loop threads the stored loss count unchanged unless it
returns a completed frame. -/
theorem accumLoop_lost (t : List (Option Packet)) :
    ∀ (pr : Nat) (buf : Frame) (lost : Option Int),
      (DCA1000.accumLoop t pr buf lost).1.isFrame = false →
      (DCA1000.accumLoop t pr buf lost).2 = lost := by
  induction t with
  | nil =>
    intro pr buf lost _
    rfl
  | cons hd tl ih =>
    intro pr buf lost
    cases hd with
    | none =>
      intro _
      rfl
    | some p =>
      by_cases hb : p.byteCount % BYTES_IN_FRAME_CLIPPED = 0
      · intro h
        exfalso
        simp [DCA1000.accumLoop, hb, RunResult.isFrame] at h
      · by_cases hv : PACKETS_IN_FRAME_CLIPPED < pr + 1
        · have heq : DCA1000.accumLoop (some p :: tl) pr buf lost
              = DCA1000.accumLoop tl 0 (tryWrite buf p) lost := by
            simp [DCA1000.accumLoop, hb, hv]
          rw [heq]
          exact ih 0 (tryWrite buf p) lost
        · have heq : DCA1000.accumLoop (some p :: tl) pr buf lost
              = DCA1000.accumLoop tl (pr + 1) (tryWrite buf p) lost := by
            simp [DCA1000.accumLoop, hb, hv]
          rw [heq]
          exact ih (pr + 1) (tryWrite buf p) lost

/-- The seeking loop threads the stored loss count unchanged unless a
completed frame is returned. -/
theorem seekLoop_lost (t : List (Option Packet)) :
    ∀ (lost : Option Int),
      (DCA1000.seekLoop t lost).1.isFrame = false →
      (DCA1000.seekLoop t lost).2 = lost := by
  induction t with
  | nil =>
    intro lost _
    rfl
  | cons hd tl ih =>
    intro lost
    cases hd with
    | none =>
      intro _
      rfl
    | some p =>
      by_cases hb : p.byteCount % BYTES_IN_FRAME_CLIPPED = 0
      · cases hs : sliceAssign frame0 0 UINT16_IN_PACKET p.payload with
        | ok buf =>
          have heq : DCA1000.seekLoop (some p :: tl) lost
              = DCA1000.accumLoop tl 1 buf lost := by
            simp [DCA1000.seekLoop, hb, hs]
          rw [heq]
          exact accumLoop_lost tl 1 buf lost
        | error e =>
          have heq : DCA1000.seekLoop (some p :: tl) lost
              = (RunResult.error, lost) := by
            simp [DCA1000.seekLoop, hb, hs]
          rw [heq]
          intro _
          rfl
      · have heq : DCA1000.seekLoop (some p :: tl) lost
            = DCA1000.seekLoop tl lost := by
          simp [DCA1000.seekLoop, hb]
        rw [heq]
        exact ih lost

/-- Claim C10: a call to `read` that does not return a completed frame —
whether it aborted while seeking or while accumulating — leaves the stored
`self.lost_packets` exactly as it was before the call; the attribute is
assigned only at the moment a completed frame is returned. -/
theorem c10_lost_unchanged (trace : List (Option Packet)) (lost : Option Int)
    (h : (DCA1000.read trace lost).1.isFrame = false) :
    (DCA1000.read trace lost).2 = lost :=
  seekLoop_lost trace lost h

/-- Witness for `c10_lost_unchanged`: a run that times out at once leaves a
previously stored loss count of 3 in place. -/
theorem c10_lost_unchanged_w :
    (DCA1000.read [none] (some 3)).2 = some 3 :=
  c10_lost_unchanged [none] (some 3) (by decide)
